import Mathlib

/-
Verification development for the FridgeScan detection orchestration layer
(`backend/app/services/detection_service.py`).

The Python service is shallowly embedded: the opaque collaborators (YOLO
adapters, the PIL image decoder) are modelled as explicit function
parameters returning `Except`, Python floats as rationals, Python's
insertion-ordered `dict` as an association list that appends new keys at
the end and updates existing keys in place, and every method of
`DetectionService` as a pure function over an explicit `ServiceState`.
-/

namespace FridgeScan

/-! ### Python string primitives -/

/-- Python `str.lower()` (the labels involved are ASCII). -/
def pyLower (s : String) : String := ⟨s.data.map Char.toLower⟩

/-- Python `str.strip()`: drop whitespace from both ends. -/
def pyStrip (s : String) : String :=
  ⟨((s.data.dropWhile Char.isWhitespace).reverse.dropWhile Char.isWhitespace).reverse⟩

/-- Whether `needle` occurs at the start of `hay` (character lists). -/
def startsWithChars : List Char → List Char → Bool
  | [], _ => true
  | _ :: _, [] => false
  | a :: as, b :: bs => a == b && startsWithChars as bs

/-- Whether `needle` occurs contiguously anywhere in `hay` (character lists). -/
def subChars (needle : List Char) : List Char → Bool
  | [] => needle.isEmpty
  | c :: t => startsWithChars needle (c :: t) || subChars needle t

/-- Python's `needle in hay` on strings. -/
def containsSub (hay needle : String) : Bool := subChars needle.data hay.data

/-- Python `a or default` on an optional string: `None` and `""` are falsy,
so this picks `a` exactly when it is present and non-empty. -/
def strOr (a : Option String) (default : String) : String :=
  match a with
  | some x => if x = "" then default else x
  | none => default

/-! ### Label vocabularies (source lines 399-413) -/

def fruits : List String :=
  ["apple", "banana", "blue berry", "stawberry", "strawberry", "lemon", "orange"]

def vegetables : List String :=
  ["brinjal", "cabbage", "capsicum", "carrot", "corn", "cucumber",
   "ginger", "green beans", "green chilly", "green leaves", "lettuce",
   "mushroom", "potato", "sweet potato", "tomato", "spinach", "broccoli"]

def dairy : List String := ["milk", "cheese", "butter", "fresh cream", "yogurt", "egg"]

def meat : List String := ["chicken", "meat", "shrimp"]

def grains : List String := ["bread", "flour"]

def other : List String := ["chocolate"]

/-- The cascade of `DetectionService._category_from_label` (source lines
415-458) applied to the already-normalized `lower_label`: exact membership
in the six vocabularies, then substring containment over five of them, then
keyword-fragment fallbacks, then `"uncategorized"`. -/
def category_chain (lower_label : String) : String :=
  if fruits.contains lower_label then "fruits"
  else if vegetables.contains lower_label then "vegetables"
  else if dairy.contains lower_label then "dairy"
  else if meat.contains lower_label then "meat"
  else if grains.contains lower_label then "grains"
  else if other.contains lower_label then "other"
  else if fruits.any (fun fruit => containsSub lower_label fruit) then "fruits"
  else if vegetables.any (fun veg => containsSub lower_label veg) then "vegetables"
  else if dairy.any (fun d => containsSub lower_label d) then "dairy"
  else if meat.any (fun m => containsSub lower_label m) then "meat"
  else if grains.any (fun g => containsSub lower_label g) then "grains"
  else if containsSub lower_label "fruit" || containsSub lower_label "berry" then "fruits"
  else if containsSub lower_label "veg" || containsSub lower_label "leaf" then "vegetables"
  else if containsSub lower_label "milk" || containsSub lower_label "cream"
       || containsSub lower_label "cheese" then "dairy"
  else if containsSub lower_label "chicken" || containsSub lower_label "meat"
       || containsSub lower_label "fish" || containsSub lower_label "shrimp" then "meat"
  else if containsSub lower_label "bread" || containsSub lower_label "flour"
       || containsSub lower_label "grain" then "grains"
  else "uncategorized"

/-- `DetectionService._category_from_label` (source lines 394-458):
`lower_label = label.lower().strip()` followed by the cascade. -/
def category_from_label (label : String) : String :=
  category_chain (pyStrip (pyLower label))

/-! Tier views of the classifier cascade, used to state the priority
contract: each tier taken in isolation, as an optional category. -/

/-- Tier 1 of `category_from_label`: exact vocabulary membership. -/
def exactTier (lower_label : String) : Option String :=
  if fruits.contains lower_label then some "fruits"
  else if vegetables.contains lower_label then some "vegetables"
  else if dairy.contains lower_label then some "dairy"
  else if meat.contains lower_label then some "meat"
  else if grains.contains lower_label then some "grains"
  else if other.contains lower_label then some "other"
  else none

/-- Tier 2 of `category_from_label`: substring containment over the five
ordered vocabularies (the `other` set takes no part in this tier). -/
def substrTier (lower_label : String) : Option String :=
  if fruits.any (fun fruit => containsSub lower_label fruit) then some "fruits"
  else if vegetables.any (fun veg => containsSub lower_label veg) then some "vegetables"
  else if dairy.any (fun d => containsSub lower_label d) then some "dairy"
  else if meat.any (fun m => containsSub lower_label m) then some "meat"
  else if grains.any (fun g => containsSub lower_label g) then some "grains"
  else none

/-- Tier 3 of `category_from_label`: keyword-fragment fallback rules. -/
def fragTier (lower_label : String) : Option String :=
  if containsSub lower_label "fruit" || containsSub lower_label "berry" then some "fruits"
  else if containsSub lower_label "veg" || containsSub lower_label "leaf" then
    some "vegetables"
  else if containsSub lower_label "milk" || containsSub lower_label "cream"
       || containsSub lower_label "cheese" then some "dairy"
  else if containsSub lower_label "chicken" || containsSub lower_label "meat"
       || containsSub lower_label "fish" || containsSub lower_label "shrimp" then some "meat"
  else if containsSub lower_label "bread" || containsSub lower_label "flour"
       || containsSub lower_label "grain" then some "grains"
  else none

theorem category_chain_tiers (ll : String) :
    category_chain ll =
      (exactTier ll).getD ((substrTier ll).getD ((fragTier ll).getD "uncategorized")) := by
  unfold category_chain exactTier substrTier fragTier
  generalize fruits.contains ll = b1
  generalize vegetables.contains ll = b2
  generalize dairy.contains ll = b3
  generalize meat.contains ll = b4
  generalize grains.contains ll = b5
  generalize other.contains ll = b6
  generalize (fruits.any fun fruit => containsSub ll fruit) = b7
  generalize (vegetables.any fun veg => containsSub ll veg) = b8
  generalize (dairy.any fun d => containsSub ll d) = b9
  generalize (meat.any fun m => containsSub ll m) = b10
  generalize (grains.any fun g => containsSub ll g) = b11
  generalize (containsSub ll "fruit" || containsSub ll "berry") = b12
  generalize (containsSub ll "veg" || containsSub ll "leaf") = b13
  generalize (containsSub ll "milk" || containsSub ll "cream"
    || containsSub ll "cheese") = b14
  generalize (containsSub ll "chicken" || containsSub ll "meat"
    || containsSub ll "fish" || containsSub ll "shrimp") = b15
  generalize (containsSub ll "bread" || containsSub ll "flour"
    || containsSub ll "grain") = b16
  cases b1 with
  | true => rfl
  | false =>
  cases b2 with
  | true => rfl
  | false =>
  cases b3 with
  | true => rfl
  | false =>
  cases b4 with
  | true => rfl
  | false =>
  cases b5 with
  | true => rfl
  | false =>
  cases b6 with
  | true => rfl
  | false =>
  cases b7 with
  | true => rfl
  | false =>
  cases b8 with
  | true => rfl
  | false =>
  cases b9 with
  | true => rfl
  | false =>
  cases b10 with
  | true => rfl
  | false =>
  cases b11 with
  | true => rfl
  | false =>
  cases b12 with
  | true => rfl
  | false =>
  cases b13 with
  | true => rfl
  | false =>
  cases b14 with
  | true => rfl
  | false =>
  cases b15 with
  | true => rfl
  | false =>
  cases b16 with
  | true => rfl
  | false => rfl

theorem category_from_label_tiers (label : String) :
    category_from_label label =
      ((exactTier (pyStrip (pyLower label))).getD
        ((substrTier (pyStrip (pyLower label))).getD
          ((fragTier (pyStrip (pyLower label))).getD "uncategorized"))) :=
  category_chain_tiers (pyStrip (pyLower label))

/-! ### Insertion-ordered maps (the shape of a Python `dict`)

A Python `dict` iterates in insertion order: a brand-new key goes to the
end, overwriting an existing key keeps its position.  Both grouping loops
of the service (`_detect_with_ensemble` and
`_group_and_count_detections`) build such a dict with a fold, so the
embedding uses an association list with exactly that discipline. -/

def alistFind? {κ β : Type} [DecidableEq κ] : List (κ × β) → κ → Option β
  | [], _ => none
  | (k, v) :: m, k2 => if k = k2 then some v else alistFind? m k2

def alistUpdate {κ β : Type} [DecidableEq κ] : List (κ × β) → κ → β → List (κ × β)
  | [], _, _ => []
  | (k, v) :: m, k2, v2 => if k = k2 then (k2, v2) :: m else (k, v) :: alistUpdate m k2 v2

section GroupFold

variable {κ α β : Type} [DecidableEq κ]

/-- One iteration of a Python `dict`-building loop: seed a fresh key with
`init`, combine a repeated key into the stored value with `upd`. -/
def upsert (key : α → κ) (init : α → β) (upd : β → α → β)
    (m : List (κ × β)) (d : α) : List (κ × β) :=
  match alistFind? m (key d) with
  | some v => alistUpdate m (key d) (upd v d)
  | none => m ++ [(key d, init d)]

/-- The whole loop, started from the empty dict. -/
def foldGroups (key : α → κ) (init : α → β) (upd : β → α → β) (l : List α) :
    List (κ × β) :=
  l.foldl (upsert key init upd) []

/-- Keys of a list in order of first occurrence. -/
def dedupFirst {γ : Type} [DecidableEq γ] : List γ → List γ
  | [] => []
  | x :: xs => x :: dedupFirst (xs.filter fun y => !decide (y = x))
termination_by l => l.length
decreasing_by
simp only [List.length_cons]
exact Nat.lt_succ_of_le (List.length_filter_le _ _)

/-- Closed-form description of `foldGroups`: one entry per distinct key in
order of first occurrence, whose value folds `upd` over all later
occurrences of the key starting from `init` of the first one. -/
def groupsSpec (key : α → κ) (init : α → β) (upd : β → α → β) : List α → List (κ × β)
  | [] => []
  | d :: l =>
    (key d, (l.filter fun e => decide (key e = key d)).foldl upd (init d)) ::
      groupsSpec key init upd (l.filter fun e => !decide (key e = key d))
termination_by l => l.length
decreasing_by
simp only [List.length_cons]
exact Nat.lt_succ_of_le (List.length_filter_le _ _)

theorem upsert_cons (key : α → κ) (init : α → β) (upd : β → α → β)
    (k : κ) (v : β) (m : List (κ × β)) (d : α) :
    upsert key init upd ((k, v) :: m) d =
      if k = key d then (k, upd v d) :: m
      else (k, v) :: upsert key init upd m d := by
  by_cases h : k = key d
  · subst h
    simp [upsert, alistFind?, alistUpdate]
  · simp only [upsert, alistFind?, if_neg h, alistUpdate]
    cases hf : alistFind? m (key d) with
    | none => simp [if_neg h]
    | some v2 => simp [if_neg h]

theorem groupsSpec_snoc (key : α → κ) (init : α → β) (upd : β → α → β)
    (d : α) (l : List α) :
    groupsSpec key init upd (l ++ [d]) =
      upsert key init upd (groupsSpec key init upd l) d := by
  induction l using groupsSpec.induct key init upd with
  | case1 =>
    simp [groupsSpec, upsert, alistFind?]
  | case2 a t ih =>
    rw [List.cons_append]
    rw [groupsSpec, groupsSpec]
    rw [List.filter_append, List.filter_append, List.foldl_append]
    by_cases h : key d = key a
    · rw [upsert_cons]
      simp [h]
    · rw [upsert_cons]
      simp [h, Ne.symm h, ih]

theorem foldGroups_eq_groupsSpec (key : α → κ) (init : α → β) (upd : β → α → β)
    (l : List α) : foldGroups key init upd l = groupsSpec key init upd l := by
  induction l using List.reverseRecOn with
  | nil => simp [foldGroups, groupsSpec]
  | append_singleton t d ih =>
    rw [foldGroups, List.foldl_append]
    simp only [List.foldl_cons, List.foldl_nil]
    rw [← foldGroups, ih, groupsSpec_snoc]

omit [DecidableEq κ] in
theorem map_filter_comp (f : α → κ) (p : κ → Bool) (l : List α) :
    (l.filter fun e => p (f e)).map f = (l.map f).filter p := by
  induction l with
  | nil => rfl
  | cons a t ih => cases hp : p (f a) <;> simp [List.filter_cons, hp, ih]

theorem groupsSpec_keys (key : α → κ) (init : α → β) (upd : β → α → β) (l : List α) :
    (groupsSpec key init upd l).map Prod.fst = dedupFirst (l.map key) := by
  induction l using groupsSpec.induct key init upd with
  | case1 => simp [groupsSpec, dedupFirst]
  | case2 a t ih =>
    rw [groupsSpec, List.map_cons, List.map_cons, dedupFirst]
    congr 1
    rw [ih]
    congr 1
    exact map_filter_comp key (fun y => !decide (y = key a)) t

theorem groupsSpec_map_snd_congr {κ2 : Type} [DecidableEq κ2] (key : α → κ)
    (key2 : α → κ2) (init : α → β) (upd : β → α → β) (l : List α)
    (h : ∀ d ∈ l, ∀ e ∈ l, (key d = key e ↔ key2 d = key2 e)) :
    (groupsSpec key init upd l).map Prod.snd =
      (groupsSpec key2 init upd l).map Prod.snd := by
  induction l using groupsSpec.induct key init upd with
  | case1 => simp [groupsSpec]
  | case2 a t ih =>
    have hf1 : (t.filter fun e => decide (key e = key a)) =
        (t.filter fun e => decide (key2 e = key2 a)) := by
      apply List.filter_congr
      intro x hx
      exact decide_eq_decide.mpr
        (h x (List.mem_cons_of_mem a hx) a (List.mem_cons_self a t))
    have hf2 : (t.filter fun e => !decide (key e = key a)) =
        (t.filter fun e => !decide (key2 e = key2 a)) := by
      apply List.filter_congr
      intro x hx
      rw [decide_eq_decide.mpr
        (h x (List.mem_cons_of_mem a hx) a (List.mem_cons_self a t))]
    rw [groupsSpec, groupsSpec, List.map_cons, List.map_cons, hf1, ← hf2]
    congr 1
    exact ih (fun d hd e he => h d (List.mem_cons_of_mem a (List.mem_of_mem_filter hd))
      e (List.mem_cons_of_mem a (List.mem_of_mem_filter he)))

end GroupFold

/-! ### Data model -/

/-- A raw detection as handed over by a YOLO adapter (one entry of the
zipped `cls`/`conf`/`xyxy` triple of source lines 269-273).  Confidences
and coordinates are Python floats, modelled as rationals. -/
structure RawDet where
  clsIdx : Nat
  confidence : ℚ
  bbox : List ℚ
deriving DecidableEq

/-- A classified detection: the dict built at source lines 276-284. -/
structure Det where
  name : String
  category : String
  quantity : Nat
  confidence : ℚ
  bbox : List ℚ
deriving DecidableEq

/-- A grouped detection: the dict built at source lines 480-487. -/
structure Grouped where
  name : String
  category : String
  quantity : Nat
  unit : String
  confidence : ℚ
  bbox : List ℚ
deriving DecidableEq

/-- The opaque inference collaborator: one bound model, returning raw
detections for a decoded image or raising (an error message). -/
def Adapter (Img : Type) := Img → Except String (List RawDet)

/-- The mutable fields of `DetectionService` (source lines 45-52).  The
`Img` parameter is the opaque decoded-image type of the PIL collaborator. -/
structure ServiceState (Img : Type) where
  primary_model : Option (Adapter Img)
  secondary_model : Option (Adapter Img)
  primary_class_names : List (Nat × String)
  secondary_class_names : List (Nat × String)
  primary_model_error : Option String
  secondary_model_error : Option String
  use_ensemble : Bool

variable {Img : Type}

/-- `DetectionService.model_ready` (source lines 171-174). -/
def model_ready (s : ServiceState Img) : Bool :=
  s.primary_model.isSome || s.secondary_model.isSome

/-- `DetectionService.primary_model_ready` (source lines 176-179). -/
def primary_model_ready (s : ServiceState Img) : Bool := s.primary_model.isSome

/-- `DetectionService.secondary_model_ready` (source lines 181-184). -/
def secondary_model_ready (s : ServiceState Img) : Bool := s.secondary_model.isSome

/-- `DetectionService.set_ensemble_mode` (source lines 186-190). -/
def set_ensemble_mode (s : ServiceState Img) (enabled : Bool) : ServiceState Img :=
  { s with use_ensemble := enabled && primary_model_ready s && secondary_model_ready s }

/-- Classification of one raw detection (source lines 273-284):
`label = class_names.get(int_cls, f"class_{int_cls}")`, category from the
label, `quantity = 1`. -/
def classifyRaw (class_names : List (Nat × String)) (r : RawDet) : Det :=
  let label := (alistFind? class_names r.clsIdx).getD ("class_" ++ toString r.clsIdx)
  { name := label, category := category_from_label label, quantity := 1,
    confidence := r.confidence, bbox := r.bbox }

/-- `DetectionService._detect_with_model` (source lines 257-286): run the
adapter, classify every raw detection; an adapter exception propagates. -/
def detect_with_model (model : Adapter Img) (class_names : List (Nat × String))
    (image : Img) : Except String (List Det) :=
  (model image).map (fun raws => raws.map (classifyRaw class_names))

/-- The merge key of `_detect_with_ensemble` (source line 304):
`det["name"].lower()` — no strip here. -/
def mergeKey (d : Det) : String := pyLower d.name

/-- The overwrite rule of `_detect_with_ensemble` (source line 307): a new
detection replaces the stored one only on strictly greater confidence. -/
def mergePick (stored det : Det) : Det :=
  if det.confidence > stored.confidence then det else stored

/-- The merge loop of `_detect_with_ensemble` (source lines 301-310) on an
already concatenated `primary ++ secondary` list. -/
def mergeDets (dets : List Det) : List Det :=
  (foldGroups mergeKey (fun det => det) mergePick dets).map Prod.snd

/-- Calling a possibly-`None` model attribute: in Python,
`None(image)` raises a `TypeError`.  Reached only when a slot is unbound,
which every caller of `_detect_with_ensemble` rules out. -/
def detect_with_model_opt (m : Option (Adapter Img)) (class_names : List (Nat × String))
    (image : Img) : Except String (List Det) :=
  match m with
  | some model => detect_with_model model class_names image
  | none => .error "TypeError: NoneType object is not callable"

/-- `DetectionService._detect_with_ensemble` (source lines 288-310): run
primary, then secondary (each exception propagating), then merge. -/
def detect_with_ensemble (s : ServiceState Img) (image : Img) :
    Except String (List Det) := do
  let primary_detections ←
    detect_with_model_opt s.primary_model s.primary_class_names image
  let secondary_detections ←
    detect_with_model_opt s.secondary_model s.secondary_class_names image
  pure (mergeDets (primary_detections ++ secondary_detections))

/-- The grouping key of `_group_and_count_detections` (source lines
465-469): `f"{name}_{category}"` with `name = det["name"].lower().strip()`. -/
def groupKey (d : Det) : String := pyStrip (pyLower d.name) ++ "_" ++ d.category

/-- Seeding a group (source lines 478-487): first occurrence, quantity 1,
unit `"item"`, that detection's bbox. -/
def groupInit (d : Det) : Grouped :=
  { name := d.name, category := d.category, quantity := 1, unit := "item",
    confidence := d.confidence, bbox := d.bbox }

/-- Updating a group (source lines 471-477): increment the count, keep the
highest confidence. -/
def groupUpd (g : Grouped) (d : Det) : Grouped :=
  { g with quantity := g.quantity + 1, confidence := max g.confidence d.confidence }

/-- `DetectionService._group_and_count_detections` (source lines 460-489). -/
def group_and_count_detections (detections : List Det) : List Grouped :=
  (foldGroups groupKey groupInit groupUpd detections).map Prod.snd

/-! ### The detect entry points -/

/-- Errors a `detect_ingredients` call can surface: the service's own
`DetectionModelNotReady`, or an adapter exception propagating uncaught
(only possible out of the ensemble branch). -/
inductive DetectErr where
  | modelNotReady (msg : String)
  | inference (msg : String)
deriving DecidableEq

/-- Source lines 239-255: the fallback tail of `detect_ingredients`,
reached after the primary slot is unbound or its inference failed. -/
def detect_fallback_secondary (s : ServiceState Img) (image : Img) :
    Except DetectErr (List Det) × ServiceState Img :=
  match s.secondary_model with
  | some m =>
    match detect_with_model m s.secondary_class_names image with
    | .ok dets => (.ok dets, s)
    | .error e =>
      (.error (.modelNotReady
        ("Both primary and secondary models failed. Last error: " ++ e)), s)
  | none =>
    (.error (.modelNotReady (strOr s.primary_model_error
      (strOr s.secondary_model_error "Detection models are not available."))), s)

/-- `DetectionService.detect_ingredients` (source lines 200-255).  The
image decoder is the PIL collaborator; the state is threaded through to
make mutation (or its absence) visible. -/
def detect_ingredients (s : ServiceState Img) (decode : List Nat → Except String Img)
    (image_bytes : List Nat) : Except DetectErr (List Det) × ServiceState Img :=
  if image_bytes.isEmpty then
    (.error (.modelNotReady "Image payload was empty."), s)
  else if !model_ready s then
    (.error (.modelNotReady (strOr s.primary_model_error
      (strOr s.secondary_model_error "No detection models are available."))), s)
  else
    match decode image_bytes with
    | .error e => (.error (.modelNotReady ("Failed to decode image: " ++ e)), s)
    | .ok image =>
      if s.use_ensemble && primary_model_ready s && secondary_model_ready s then
        match detect_with_ensemble s image with
        | .ok dets => (.ok dets, s)
        | .error e => (.error (.inference e), s)
      else
        match s.primary_model with
        | some m =>
          match detect_with_model m s.primary_class_names image with
          | .ok dets => (.ok dets, s)
          | .error _e => detect_fallback_secondary s image
        | none => detect_fallback_secondary s image

/-- Result shape of `detect_ingredients_both_models` (source lines 332-335). -/
structure BothResult where
  model1 : List Grouped
  model2 : List Grouped
deriving DecidableEq

/-- One slot's contribution in `detect_ingredients_both_models` (source
lines 337-359): unbound slot or failed inference degrade to `[]`. -/
def slotGrouped (m : Option (Adapter Img)) (class_names : List (Nat × String))
    (image : Img) : List Grouped :=
  match m with
  | none => []
  | some model =>
    match detect_with_model model class_names image with
    | .ok raw_detections => group_and_count_detections raw_detections
    | .error _e => []

/-- `DetectionService.detect_ingredients_both_models` (source lines
312-361). -/
def detect_ingredients_both_models (s : ServiceState Img)
    (decode : List Nat → Except String Img) (image_bytes : List Nat) :
    Except DetectErr BothResult × ServiceState Img :=
  if image_bytes.isEmpty then
    (.error (.modelNotReady "Image payload was empty."), s)
  else if !primary_model_ready s && !secondary_model_ready s then
    (.error (.modelNotReady (strOr s.primary_model_error
      (strOr s.secondary_model_error "No detection models are available."))), s)
  else
    match decode image_bytes with
    | .error e => (.error (.modelNotReady ("Failed to decode image: " ++ e)), s)
    | .ok image =>
      (.ok { model1 := slotGrouped s.primary_model s.primary_class_names image,
             model2 := slotGrouped s.secondary_model s.secondary_class_names image }, s)

/-! ### Concrete collaborators used by the witnesses -/

/-- A decoded-image stand-in: witnesses instantiate `Img := Unit`. -/
def decodeU : List Nat → Except String Unit := fun _ => .ok ()

def rawEgg : RawDet := { clsIdx := 0, confidence := 1/2, bbox := [] }

def adapterPrimaryFail : Adapter Unit := fun _ => .error "primary exploded"

def adapterSecondaryFail : Adapter Unit := fun _ => .error "secondary exploded"

def adapterSecondaryOk : Adapter Unit := fun _ => .ok [rawEgg]

/-! ### Claim theorems -/

/-- Claim C6: the classifier evaluates its tiers in fixed priority — exact
case-insensitive vocabulary match, then substring containment, then
keyword-fragment rules, then the default `"uncategorized"` — so an exact
match always beats a substring match and a substring match always beats a
fragment rule; `categorize "Strawberry" = "fruits"`,
`categorize "Sweet Potato" = "vegetables"`, and a label matching no
vocabulary entry (exactly or by substring) that contains `"berry"` is
resolved to `"fruits"` at the fragment tier. -/
theorem claim_C6_classifier_tiers :
    (∀ label : String, category_from_label label =
        (exactTier (pyStrip (pyLower label))).getD
          ((substrTier (pyStrip (pyLower label))).getD
            ((fragTier (pyStrip (pyLower label))).getD "uncategorized")))
    ∧ category_from_label "Strawberry" = "fruits"
    ∧ category_from_label "Sweet Potato" = "vegetables"
    ∧ (∀ label : String,
        exactTier (pyStrip (pyLower label)) = none →
        substrTier (pyStrip (pyLower label)) = none →
        containsSub (pyStrip (pyLower label)) "berry" = true →
        category_from_label label = "fruits") := by
  refine ⟨fun label => category_chain_tiers _, by decide, by decide, ?_⟩
  intro label he hs hb
  rw [category_from_label, category_chain_tiers, he, hs]
  unfold fragTier
  simp [hb]

/-- Witness for C6 at the concrete label `"zzzberry"`: neither tier 1 nor
tier 2 matches it, so the fragment rule fires. -/
theorem claim_C6_witness :
    exactTier (pyStrip (pyLower "zzzberry")) = none ∧
    substrTier (pyStrip (pyLower "zzzberry")) = none ∧
    category_from_label "zzzberry" = "fruits" :=
  ⟨by decide, by decide,
   claim_C6_classifier_tiers.2.2.2 "zzzberry" (by decide) (by decide) (by decide)⟩

/-- Claim C3: with neither slot bound, `detect_ingredients` raises
`ModelNotReady` whose message is the first non-empty of the two recorded
load errors, or the generic "No detection models are available."; an empty
image payload also raises `ModelNotReady` immediately (for any state). -/
theorem claim_C3_unavailable {Img : Type} (s : ServiceState Img)
    (decode : List Nat → Except String Img) (image_bytes : List Nat) :
    (s.primary_model = none → s.secondary_model = none → image_bytes ≠ [] →
      (detect_ingredients s decode image_bytes).fst =
        .error (.modelNotReady (strOr s.primary_model_error
          (strOr s.secondary_model_error "No detection models are available."))))
    ∧ (detect_ingredients s decode []).fst =
        .error (.modelNotReady "Image payload was empty.") := by
  constructor
  · intro hp hs hb
    have hempty : image_bytes.isEmpty = false := by
      cases image_bytes with
      | nil => exact absurd rfl hb
      | cons a t => rfl
    simp [detect_ingredients, hempty, model_ready, hp, hs]
  · rfl

def noLoadState : ServiceState Unit :=
  { primary_model := none, secondary_model := none,
    primary_class_names := [], secondary_class_names := [],
    primary_model_error := some "primary load failed",
    secondary_model_error := none, use_ensemble := false }

/-- Witness for C3: a state where both slots failed to load; the recorded
primary load error surfaces. -/
theorem claim_C3_witness :
    (detect_ingredients noLoadState decodeU [1]).fst =
      .error (.modelNotReady "primary load failed") :=
  (claim_C3_unavailable noLoadState decodeU [1]).1 rfl rfl (by decide)

/-- Claim C1: decode succeeds, primary bound but raising, secondary bound
and succeeding, ensemble off — `detect_ingredients` returns the
secondary's classified detections without raising. -/
theorem claim_C1_fallback_to_secondary {Img : Type} (s : ServiceState Img)
    (decode : List Nat → Except String Img) (image_bytes : List Nat) (image : Img)
    (mp ms : Adapter Img) (e : String) (raws : List RawDet)
    (hb : image_bytes ≠ [])
    (hdec : decode image_bytes = .ok image)
    (hens : s.use_ensemble = false)
    (hp : s.primary_model = some mp)
    (hpe : mp image = .error e)
    (hs : s.secondary_model = some ms)
    (hse : ms image = .ok raws) :
    (detect_ingredients s decode image_bytes).fst =
      .ok (raws.map (classifyRaw s.secondary_class_names)) := by
  have hempty : image_bytes.isEmpty = false := by
    cases image_bytes with
    | nil => exact absurd rfl hb
    | cons a t => rfl
  simp [detect_ingredients, hempty, model_ready, hp, hs, hdec, hens,
    detect_with_model, hpe, hse, detect_fallback_secondary, Except.map]

def fallbackOkState : ServiceState Unit :=
  { primary_model := some adapterPrimaryFail,
    secondary_model := some adapterSecondaryOk,
    primary_class_names := [], secondary_class_names := [(0, "egg")],
    primary_model_error := none, secondary_model_error := none,
    use_ensemble := false }

/-- Witness for C1: the primary adapter raises, the secondary returns one
raw detection, and the call returns the secondary's classified list. -/
theorem claim_C1_witness :
    (detect_ingredients fallbackOkState decodeU [1]).fst =
      .ok ([rawEgg].map (classifyRaw fallbackOkState.secondary_class_names)) :=
  claim_C1_fallback_to_secondary fallbackOkState decodeU [1] () adapterPrimaryFail
    adapterSecondaryOk "primary exploded" [rawEgg]
    (by decide) rfl rfl rfl rfl rfl rfl

def ensembleBothFailState : ServiceState Unit :=
  { primary_model := some adapterPrimaryFail,
    secondary_model := some adapterSecondaryFail,
    primary_class_names := [], secondary_class_names := [],
    primary_model_error := none, secondary_model_error := none,
    use_ensemble := true }

/-- Counterexample to Claim C2 as stated: in ensemble mode with both
adapters raising, the call fails with the primary's error propagated
unchanged — the message does not contain the secondary's underlying
message, so it is not "an aggregated error containing both underlying
messages". -/
theorem claim_C2_counterexample :
    (detect_ingredients ensembleBothFailState decodeU [1]).fst =
      .error (.inference "primary exploded") ∧
    containsSub "primary exploded" "secondary exploded" = false :=
  ⟨rfl, by decide⟩

/-- Claim C2 (amended): in ensemble mode (both slots bound, flag on), if
either adapter raises, the whole call fails by propagating that adapter's
error unchanged — the primary's if the primary raises (the secondary is
then never consulted), otherwise the secondary's — returning no partial
result even when the other adapter would have succeeded. -/
theorem claim_C2_ensemble_abort {Img : Type} (s : ServiceState Img)
    (decode : List Nat → Except String Img) (image_bytes : List Nat) (image : Img)
    (mp ms : Adapter Img)
    (hb : image_bytes ≠ [])
    (hdec : decode image_bytes = .ok image)
    (hens : s.use_ensemble = true)
    (hp : s.primary_model = some mp)
    (hs : s.secondary_model = some ms) :
    (∀ e, mp image = .error e →
      (detect_ingredients s decode image_bytes).fst = .error (.inference e))
    ∧ (∀ raws e, mp image = .ok raws → ms image = .error e →
      (detect_ingredients s decode image_bytes).fst = .error (.inference e)) := by
  have hempty : image_bytes.isEmpty = false := by
    cases image_bytes with
    | nil => exact absurd rfl hb
    | cons a t => rfl
  constructor
  · intro e hpe
    simp [detect_ingredients, hempty, model_ready, primary_model_ready,
      secondary_model_ready, hp, hs, hdec, hens, detect_with_ensemble,
      detect_with_model_opt, detect_with_model, hpe, Except.map,
      Bind.bind, Except.bind, Functor.map]
  · intro raws e hpok hse
    simp [detect_ingredients, hempty, model_ready, primary_model_ready,
      secondary_model_ready, hp, hs, hdec, hens, detect_with_ensemble,
      detect_with_model_opt, detect_with_model, hpok, hse, Except.map,
      Bind.bind, Except.bind, Functor.map]

def ensembleSecondFailState : ServiceState Unit :=
  { primary_model := some adapterSecondaryOk,
    secondary_model := some adapterSecondaryFail,
    primary_class_names := [(0, "egg")], secondary_class_names := [],
    primary_model_error := none, secondary_model_error := none,
    use_ensemble := true }

/-- Witness for amended C2: both directions at concrete states — primary
raising aborts with the primary's error, secondary raising aborts with the
secondary's error. -/
theorem claim_C2_witness :
    (detect_ingredients ensembleBothFailState decodeU [1]).fst =
      .error (.inference "primary exploded") ∧
    (detect_ingredients ensembleSecondFailState decodeU [1]).fst =
      .error (.inference "secondary exploded") :=
  ⟨(claim_C2_ensemble_abort ensembleBothFailState decodeU [1] ()
      adapterPrimaryFail adapterSecondaryFail (by decide) rfl rfl rfl rfl).1
      "primary exploded" rfl,
   (claim_C2_ensemble_abort ensembleSecondFailState decodeU [1] ()
      adapterSecondaryOk adapterSecondaryFail (by decide) rfl rfl rfl rfl).2
      [rawEgg] "secondary exploded" rfl rfl⟩

def fallbackBothFailState : ServiceState Unit :=
  { primary_model := some adapterPrimaryFail,
    secondary_model := some adapterSecondaryFail,
    primary_class_names := [], secondary_class_names := [],
    primary_model_error := none, secondary_model_error := none,
    use_ensemble := false }

/-- Counterexample to Claim C7 as stated: with ensemble off and both
inferences failing, the raised message quotes only the last (secondary)
error — the primary's failure message is not embedded, so the error does
not embed "both attempted failures". -/
theorem claim_C7_counterexample :
    (detect_ingredients fallbackBothFailState decodeU [1]).fst =
      .error (.modelNotReady
        "Both primary and secondary models failed. Last error: secondary exploded") ∧
    containsSub "Both primary and secondary models failed. Last error: secondary exploded"
      "primary exploded" = false :=
  ⟨rfl, by decide⟩

/-- Claim C7 (amended): with ensemble off, when the primary's inference
fails: if the secondary slot is bound and also fails, the call fails with a
`ModelNotReady` stating that both models failed but quoting only the
secondary's (last) error message; if the secondary slot is unbound, the
call proceeds straight to failure — there is no second adapter to attempt —
with a `ModelNotReady` carrying the first non-empty recorded load error (or
a generic message), not the inference failure. -/
theorem claim_C7_fallback_failure {Img : Type} (s : ServiceState Img)
    (decode : List Nat → Except String Img) (image_bytes : List Nat) (image : Img)
    (mp : Adapter Img) (e1 : String)
    (hb : image_bytes ≠ [])
    (hdec : decode image_bytes = .ok image)
    (hens : s.use_ensemble = false)
    (hp : s.primary_model = some mp)
    (hpe : mp image = .error e1) :
    (∀ ms e2, s.secondary_model = some ms → ms image = .error e2 →
      (detect_ingredients s decode image_bytes).fst =
        .error (.modelNotReady
          ("Both primary and secondary models failed. Last error: " ++ e2)))
    ∧ (s.secondary_model = none →
      (detect_ingredients s decode image_bytes).fst =
        .error (.modelNotReady (strOr s.primary_model_error
          (strOr s.secondary_model_error "Detection models are not available.")))) := by
  have hempty : image_bytes.isEmpty = false := by
    cases image_bytes with
    | nil => exact absurd rfl hb
    | cons a t => rfl
  constructor
  · intro ms e2 hs hse
    simp [detect_ingredients, hempty, model_ready, hp, hs, hdec, hens,
      detect_with_model, hpe, hse, detect_fallback_secondary, Except.map]
  · intro hs
    simp [detect_ingredients, hempty, model_ready, hp, hs, hdec, hens,
      detect_with_model, hpe, detect_fallback_secondary, Except.map]

def fallbackNoSecondState : ServiceState Unit :=
  { primary_model := some adapterPrimaryFail, secondary_model := none,
    primary_class_names := [], secondary_class_names := [],
    primary_model_error := none,
    secondary_model_error := some "secondary load failed",
    use_ensemble := false }

/-- Witness for amended C7: both branches at concrete states. -/
theorem claim_C7_witness :
    (detect_ingredients fallbackBothFailState decodeU [1]).fst =
      .error (.modelNotReady
        "Both primary and secondary models failed. Last error: secondary exploded") ∧
    (detect_ingredients fallbackNoSecondState decodeU [1]).fst =
      .error (.modelNotReady "secondary load failed") :=
  ⟨(claim_C7_fallback_failure fallbackBothFailState decodeU [1] ()
      adapterPrimaryFail "primary exploded" (by decide) rfl rfl rfl rfl).1
      adapterSecondaryFail "secondary exploded" rfl rfl,
   (claim_C7_fallback_failure fallbackNoSecondState decodeU [1] ()
      adapterPrimaryFail "primary exploded" (by decide) rfl rfl rfl rfl).2 rfl⟩

/-- Claim C9: a `detect_ingredients` call never mutates the registry
state — bindings, label maps, load errors, the ensemble flag and all
readiness queries are identical after the call, whether it succeeds or
raises. -/
theorem claim_C9_registry_unchanged {Img : Type} (s : ServiceState Img)
    (decode : List Nat → Except String Img) (image_bytes : List Nat) :
    (detect_ingredients s decode image_bytes).snd = s ∧
    model_ready (detect_ingredients s decode image_bytes).snd = model_ready s ∧
    primary_model_ready (detect_ingredients s decode image_bytes).snd =
      primary_model_ready s ∧
    secondary_model_ready (detect_ingredients s decode image_bytes).snd =
      secondary_model_ready s ∧
    (detect_ingredients s decode image_bytes).snd.primary_class_names =
      s.primary_class_names ∧
    (detect_ingredients s decode image_bytes).snd.secondary_class_names =
      s.secondary_class_names ∧
    (detect_ingredients s decode image_bytes).snd.primary_model_error =
      s.primary_model_error ∧
    (detect_ingredients s decode image_bytes).snd.secondary_model_error =
      s.secondary_model_error ∧
    (detect_ingredients s decode image_bytes).snd.use_ensemble = s.use_ensemble := by
  have h : (detect_ingredients s decode image_bytes).snd = s := by
    unfold detect_ingredients detect_fallback_secondary
    repeat' split
    all_goals rfl
  simp [h]

/-- Claim C8: `detect_ingredients_both_models` runs each bound slot
independently: whenever at least one slot is bound and the image decodes,
it returns both per-model counted lists unconditionally (a failing or
unbound slot contributes `[]` instead of failing the call); with no slot
bound it fails with the same `ModelNotReady` error `detect_ingredients`
raises. -/
theorem claim_C8_both_models {Img : Type} (s : ServiceState Img)
    (decode : List Nat → Except String Img) (image_bytes : List Nat) (image : Img)
    (hb : image_bytes ≠ [])
    (hdec : decode image_bytes = .ok image) :
    (primary_model_ready s = true ∨ secondary_model_ready s = true →
      (detect_ingredients_both_models s decode image_bytes).fst =
        .ok { model1 := slotGrouped s.primary_model s.primary_class_names image,
              model2 := slotGrouped s.secondary_model s.secondary_class_names image })
    ∧ (s.primary_model = none → s.secondary_model = none →
      (detect_ingredients_both_models s decode image_bytes).fst =
          .error (.modelNotReady (strOr s.primary_model_error
            (strOr s.secondary_model_error "No detection models are available.")))
        ∧ (detect_ingredients s decode image_bytes).fst =
          .error (.modelNotReady (strOr s.primary_model_error
            (strOr s.secondary_model_error "No detection models are available.")))) := by
  have hempty : image_bytes.isEmpty = false := by
    cases image_bytes with
    | nil => exact absurd rfl hb
    | cons a t => rfl
  constructor
  · intro hready
    have hg : (!primary_model_ready s && !secondary_model_ready s) = false := by
      rcases hready with h | h <;> simp [h]
    simp [detect_ingredients_both_models, hempty, hg, hdec]
  · intro hp hs
    constructor
    · simp [detect_ingredients_both_models, hempty, primary_model_ready,
        secondary_model_ready, hp, hs]
    · simp [detect_ingredients, hempty, model_ready, hp, hs]

/-- Witness for C8: a state whose primary raises and secondary succeeds
yields both lists (primary degraded to `[]`), and the no-slot state fails
with the recorded load error. -/
theorem claim_C8_witness :
    (detect_ingredients_both_models fallbackOkState decodeU [1]).fst =
      .ok { model1 := slotGrouped fallbackOkState.primary_model
              fallbackOkState.primary_class_names (),
            model2 := slotGrouped fallbackOkState.secondary_model
              fallbackOkState.secondary_class_names () } ∧
    (detect_ingredients_both_models noLoadState decodeU [1]).fst =
      .error (.modelNotReady "primary load failed") :=
  ⟨(claim_C8_both_models fallbackOkState decodeU [1] () (by decide) rfl).1 (Or.inl rfl),
   ((claim_C8_both_models noLoadState decodeU [1] () (by decide) rfl).2 rfl rfl).1⟩

/-! ### The merge characterization (Claim C4) -/

theorem mergePick_foldl_key (k : String) (ds : List Det) :
    ∀ d0 : Det, mergeKey d0 = k → (∀ d ∈ ds, mergeKey d = k) →
      mergeKey (ds.foldl mergePick d0) = k := by
  induction ds with
  | nil => intro d0 h0 _; exact h0
  | cons a t ih =>
    intro d0 h0 hds
    rw [List.foldl_cons]
    apply ih
    · unfold mergePick
      split
      · exact hds a (List.mem_cons_self a t)
      · exact h0
    · intro d hd
      exact hds d (List.mem_cons_of_mem a hd)

theorem groupsSpec_merge_entry_key (l : List Det) :
    ∀ kv ∈ groupsSpec mergeKey (fun det => det) mergePick l,
      mergeKey kv.snd = kv.fst := by
  induction l using groupsSpec.induct mergeKey (fun det => det) mergePick with
  | case1 => intro kv h; simp [groupsSpec] at h
  | case2 a t ih =>
    intro kv hkv
    rw [groupsSpec] at hkv
    rcases List.mem_cons.mp hkv with h | h
    · subst h
      apply mergePick_foldl_key (mergeKey a) _ a rfl
      intro d hd
      simpa using (List.mem_filter.mp hd).2
    · exact ih kv h

theorem mergeDets_keys (l : List Det) :
    (mergeDets l).map mergeKey = dedupFirst (l.map mergeKey) := by
  rw [mergeDets, foldGroups_eq_groupsSpec, List.map_map,
    ← groupsSpec_keys mergeKey (fun det => det) mergePick l]
  apply List.map_congr_left
  intro kv hkv
  exact groupsSpec_merge_entry_key l kv hkv

theorem mergeDets_pair_tie (d1 d2 : Det) (hk : mergeKey d1 = mergeKey d2)
    (hc : d2.confidence = d1.confidence) : mergeDets ([d1] ++ [d2]) = [d1] := by
  simp [mergeDets, foldGroups, upsert, alistFind?, alistUpdate, mergePick,
    hk, hc, lt_self_iff_false]

/-- Claim C4: the ensemble merge builds one insertion-ordered map keyed by
`lowercase(name)` over every primary detection followed by every secondary
one — the first detection of a key is inserted, and a later one overwrites
only on strictly greater confidence (so an exact tie keeps the primary
entry), the output preserving first-insertion key order. -/
theorem claim_C4_merge_semantics :
    (∀ p s2 : List Det, mergeDets (p ++ s2) =
        (groupsSpec mergeKey (fun det => det) mergePick (p ++ s2)).map Prod.snd)
    ∧ (∀ p s2 : List Det, (mergeDets (p ++ s2)).map mergeKey =
        dedupFirst ((p ++ s2).map mergeKey))
    ∧ (∀ d1 d2 : Det, mergeKey d1 = mergeKey d2 → d2.confidence = d1.confidence →
        mergeDets ([d1] ++ [d2]) = [d1]) :=
  ⟨fun p s2 => by rw [mergeDets, foldGroups_eq_groupsSpec],
   fun p s2 => mergeDets_keys (p ++ s2),
   mergeDets_pair_tie⟩

def eggPrimary : Det :=
  { name := "Egg", category := "dairy", quantity := 1, confidence := 95/100, bbox := [] }

def eggSecondary : Det :=
  { name := "egg", category := "dairy", quantity := 1, confidence := 95/100, bbox := [] }

/-- Witness for C4: on an exact confidence tie the primary entry wins. -/
theorem claim_C4_witness : mergeDets ([eggPrimary] ++ [eggSecondary]) = [eggPrimary] :=
  claim_C4_merge_semantics.2.2 eggPrimary eggSecondary rfl rfl

/-! ### The grouping characterization (Claims C5, C10)

The code keys groups by the string `f"{name}_{category}"`.  When the
category contains no underscore — true of every category the classifier
can produce — that string determines the `(name, category)` pair, so the
grouping is by pair.  The padding counterexample below shows the name is
normalized with `strip` in addition to `lower`. -/

/-- The pair the grouping key encodes: `(name.lower().strip(), category)`. -/
def pairKey (d : Det) : String × String := (pyStrip (pyLower d.name), d.category)

/-- The group a first occurrence `d` with later same-key occurrences `ds`
ends up as: quantity `1 + ds.length`, unit `"item"`, the first occurrence's
bbox and spelling, and the running maximum of all confidences. -/
def groupClosed (d : Det) (ds : List Det) : Grouped :=
  { name := d.name, category := d.category, quantity := 1 + ds.length, unit := "item",
    confidence := ds.foldl (fun c e => max c e.confidence) d.confidence, bbox := d.bbox }

/-- Closed-form spec of the whole grouping: one entry per distinct
`pairKey`, in order of first occurrence. -/
def groupAndCountSpec : List Det → List Grouped
  | [] => []
  | d :: l =>
    groupClosed d (l.filter fun e => decide (pairKey e = pairKey d)) ::
      groupAndCountSpec (l.filter fun e => !decide (pairKey e = pairKey d))
termination_by l => l.length
decreasing_by
simp only [List.length_cons]
exact Nat.lt_succ_of_le (List.length_filter_le _ _)

theorem string_eq_of_data {s t : String} (h : s.data = t.data) : s = t := by
  cases s
  cases t
  exact congrArg String.mk h

theorem append_sep_inj : ∀ a a2 c c2 : List Char, '_' ∉ c → '_' ∉ c2 →
    a ++ '_' :: c = a2 ++ '_' :: c2 → a = a2 ∧ c = c2 := by
  intro a
  induction a with
  | nil =>
    intro a2 c c2 h1 h2 he
    cases a2 with
    | nil =>
      simp only [List.nil_append, List.cons.injEq] at he
      exact ⟨rfl, he.2⟩
    | cons x t =>
      simp only [List.nil_append, List.cons_append, List.cons.injEq] at he
      exact absurd (he.2 ▸ List.mem_append_right t (List.mem_cons_self _ _)) h1
  | cons x t ih =>
    intro a2 c c2 h1 h2 he
    cases a2 with
    | nil =>
      simp only [List.cons_append, List.nil_append, List.cons.injEq] at he
      exact absurd (he.2.symm ▸ List.mem_append_right t (List.mem_cons_self _ _)) h2
    | cons y u =>
      simp only [List.cons_append, List.cons.injEq] at he
      obtain ⟨hxy, ht⟩ := he
      obtain ⟨h3, h4⟩ := ih u c c2 h1 h2 ht
      exact ⟨by rw [hxy, h3], h4⟩

theorem groupKey_data (d : Det) :
    (groupKey d).data = (pyStrip (pyLower d.name)).data ++ '_' :: d.category.data := by
  rw [groupKey, String.data_append, String.data_append]
  simp

theorem groupKey_pairKey_iff (d e : Det)
    (hd : '_' ∉ d.category.data) (he : '_' ∉ e.category.data) :
    (groupKey d = groupKey e ↔ pairKey d = pairKey e) := by
  constructor
  · intro h
    have hdata := congrArg String.data h
    rw [groupKey_data, groupKey_data] at hdata
    obtain ⟨h1, h2⟩ := append_sep_inj _ _ _ _ hd he hdata
    rw [pairKey, pairKey, string_eq_of_data h1, string_eq_of_data h2]
  · intro h
    have h2 := h
    simp only [pairKey, Prod.mk.injEq] at h2
    rw [groupKey, groupKey, h2.1, h2.2]

theorem foldl_groupUpd (ds : List Det) : ∀ g : Grouped,
    ds.foldl groupUpd g =
      { g with
        quantity := g.quantity + ds.length,
        confidence := ds.foldl (fun c e => max c e.confidence) g.confidence } := by
  induction ds with
  | nil => intro g; rfl
  | cons a t ih =>
    intro g
    rw [List.foldl_cons, ih (groupUpd g a), List.foldl_cons]
    cases g
    simp only [groupUpd, Grouped.mk.injEq, List.length_cons, and_true, true_and]
    omega

theorem foldl_groupUpd_init (d : Det) (ds : List Det) :
    ds.foldl groupUpd (groupInit d) = groupClosed d ds := by
  rw [foldl_groupUpd]
  rfl

theorem map_snd_groupsSpec_pairKey (l : List Det) :
    (groupsSpec pairKey groupInit groupUpd l).map Prod.snd = groupAndCountSpec l := by
  induction l using groupsSpec.induct pairKey groupInit groupUpd with
  | case1 => simp [groupsSpec, groupAndCountSpec]
  | case2 a t ih =>
    rw [groupsSpec, groupAndCountSpec, List.map_cons, foldl_groupUpd_init, ih]

def tomatoPlain : Det :=
  { name := "tomato", category := "vegetables", quantity := 1,
    confidence := 8/10, bbox := [] }

def tomatoPadded : Det :=
  { name := " tomato", category := "vegetables", quantity := 1,
    confidence := 6/10, bbox := [] }

/-- Counterexample to Claim C5 as stated: the grouping key normalizes the
name with `strip` in addition to `lower`, so `"tomato"` and `" tomato"` —
two detections with distinct `(lowercase(name), category)` pairs — collapse
into a single group: the output does not have one entry per distinct
`(lowercase(name), category)` pair. -/
theorem claim_C5_counterexample :
    (group_and_count_detections [tomatoPlain, tomatoPadded]).length = 1 ∧
    (pyLower tomatoPlain.name, tomatoPlain.category) ≠
      (pyLower tomatoPadded.name, tomatoPadded.category) :=
  ⟨rfl, by decide⟩

/-- Every category the classifier can produce is one of seven fixed
literals, none containing an underscore — so the underscore-free proviso of
the amended Claim C5 holds for all classifier-produced detections. -/
theorem category_chain_no_underscore (ll : String) :
    ¬ '_' ∈ (category_chain ll).data := by
  unfold category_chain
  generalize fruits.contains ll = b1
  generalize vegetables.contains ll = b2
  generalize dairy.contains ll = b3
  generalize meat.contains ll = b4
  generalize grains.contains ll = b5
  generalize other.contains ll = b6
  generalize (fruits.any fun fruit => containsSub ll fruit) = b7
  generalize (vegetables.any fun veg => containsSub ll veg) = b8
  generalize (dairy.any fun d => containsSub ll d) = b9
  generalize (meat.any fun m => containsSub ll m) = b10
  generalize (grains.any fun g => containsSub ll g) = b11
  generalize (containsSub ll "fruit" || containsSub ll "berry") = b12
  generalize (containsSub ll "veg" || containsSub ll "leaf") = b13
  generalize (containsSub ll "milk" || containsSub ll "cream"
    || containsSub ll "cheese") = b14
  generalize (containsSub ll "chicken" || containsSub ll "meat"
    || containsSub ll "fish" || containsSub ll "shrimp") = b15
  generalize (containsSub ll "bread" || containsSub ll "flour"
    || containsSub ll "grain") = b16
  cases b1 with
  | true => simp
  | false =>
  cases b2 with
  | true => simp
  | false =>
  cases b3 with
  | true => simp
  | false =>
  cases b4 with
  | true => simp
  | false =>
  cases b5 with
  | true => simp
  | false =>
  cases b6 with
  | true => simp
  | false =>
  cases b7 with
  | true => simp
  | false =>
  cases b8 with
  | true => simp
  | false =>
  cases b9 with
  | true => simp
  | false =>
  cases b10 with
  | true => simp
  | false =>
  cases b11 with
  | true => simp
  | false =>
  cases b12 with
  | true => simp
  | false =>
  cases b13 with
  | true => simp
  | false =>
  cases b14 with
  | true => simp
  | false =>
  cases b15 with
  | true => simp
  | false =>
  cases b16 with
  | true => simp
  | false => simp

/-- Claim C5 (amended): for detections whose categories contain no
underscore (as all classifier-produced categories do),
`group_and_count_detections` returns exactly one entry per distinct
`(lowercase(stripped name), category)` pair in first-occurrence order; the
first occurrence seeds the group with quantity 1, unit `"item"` and that
detection's bbox, and every later detection sharing the key increments the
quantity by 1 and keeps the running maximum confidence.  The proviso is
vacuous in the pipeline: no classifier-produced category contains an
underscore (second conjunct). -/
theorem claim_C5_group_and_count :
    (∀ l : List Det, (∀ d ∈ l, '_' ∉ d.category.data) →
      group_and_count_detections l = groupAndCountSpec l)
    ∧ (∀ label : String, '_' ∉ (category_from_label label).data) := by
  constructor
  · intro l h
    rw [group_and_count_detections, foldGroups_eq_groupsSpec]
    rw [groupsSpec_map_snd_congr groupKey pairKey groupInit groupUpd l
      (fun d hd e he2 => groupKey_pairKey_iff d e (h d hd) (h e he2))]
    exact map_snd_groupsSpec_pairKey l
  · intro label
    exact category_chain_no_underscore (pyStrip (pyLower label))

def tomatoHigh : Det :=
  { name := "tomato", category := "vegetables", quantity := 1,
    confidence := 8/10, bbox := [] }

def tomatoLow : Det :=
  { name := "tomato", category := "vegetables", quantity := 1,
    confidence := 6/10, bbox := [] }

def eggHigh : Det :=
  { name := "egg", category := "dairy", quantity := 1,
    confidence := 99/100, bbox := [] }

/-- Witness for amended C5 on the spec's own example:
`[{tomato,0.8},{tomato,0.6},{egg,0.99}]` groups to
`[{tomato,qty=2,conf=0.8},{egg,qty=1,conf=0.99}]`. -/
theorem claim_C5_witness :
    group_and_count_detections [tomatoHigh, tomatoLow, eggHigh] =
      groupAndCountSpec [tomatoHigh, tomatoLow, eggHigh] ∧
    (group_and_count_detections [tomatoHigh, tomatoLow, eggHigh]).map
        (fun g => (g.name, g.category, g.quantity, g.unit)) =
      [("tomato", "vegetables", 2, "item"), ("egg", "dairy", 1, "item")] :=
  ⟨claim_C5_group_and_count.1 [tomatoHigh, tomatoLow, eggHigh] (by decide), by rfl⟩

theorem length_filter_partition (p : α → Bool) (l : List α) :
    (l.filter p).length + (l.filter fun x => !p x).length = l.length := by
  induction l with
  | nil => rfl
  | cons a t ih =>
    cases h : p a <;> simp [List.filter_cons, h] <;> omega

theorem sum_quantities_groupsSpec (l : List Det) :
    (((groupsSpec groupKey groupInit groupUpd l).map Prod.snd).map
      (fun g => g.quantity)).sum = l.length := by
  induction l using groupsSpec.induct groupKey groupInit groupUpd with
  | case1 => simp [groupsSpec]
  | case2 a t ih =>
    rw [groupsSpec]
    simp only [List.map_cons, List.sum_cons]
    rw [foldl_groupUpd_init, ih]
    have hpart := length_filter_partition (fun e => decide (groupKey e = groupKey a)) t
    simp only [groupClosed, List.length_cons]
    omega

theorem quantity_pos_groupsSpec (l : List Det) :
    ∀ g ∈ (groupsSpec groupKey groupInit groupUpd l).map Prod.snd, 1 ≤ g.quantity := by
  induction l using groupsSpec.induct groupKey groupInit groupUpd with
  | case1 => intro g hg; simp [groupsSpec] at hg
  | case2 a t ih =>
    intro g hg
    rw [groupsSpec] at hg
    simp only [List.map_cons, List.mem_cons] at hg
    rcases hg with h | h
    · subst h
      rw [foldl_groupUpd_init]
      simp [groupClosed]
    · exact ih g (by simpa using h)

/-- Claim C10: summing the quantities of the groups recovers the length of
the input list, every quantity is at least 1, and the empty input yields
the empty output. -/
theorem claim_C10_quantity_conservation :
    (∀ l : List Det,
      ((group_and_count_detections l).map (fun g => g.quantity)).sum = l.length)
    ∧ (∀ l : List Det, ∀ g ∈ group_and_count_detections l, 1 ≤ g.quantity)
    ∧ group_and_count_detections [] = [] := by
  refine ⟨fun l => ?_, fun l g hg => ?_, rfl⟩
  · rw [group_and_count_detections, foldGroups_eq_groupsSpec]
    exact sum_quantities_groupsSpec l
  · rw [group_and_count_detections, foldGroups_eq_groupsSpec] at hg
    exact quantity_pos_groupsSpec l g hg

/-- Witness for C10 at a concrete input: quantities sum to the input
length, and the concrete group ever produced has quantity at least 1. -/
theorem claim_C10_witness :
    ((group_and_count_detections [tomatoHigh, tomatoLow, eggHigh]).map
      (fun g => g.quantity)).sum = [tomatoHigh, tomatoLow, eggHigh].length ∧
    1 ≤ (groupInit eggHigh).quantity :=
  ⟨claim_C10_quantity_conservation.1 [tomatoHigh, tomatoLow, eggHigh],
   claim_C10_quantity_conservation.2.1 [eggHigh] (groupInit eggHigh)
     (by rw [show group_and_count_detections [eggHigh] = [groupInit eggHigh] from rfl]
         exact List.mem_singleton_self _)⟩

end FridgeScan
